import Mathlib

/-!
Verification model of the types-mediawiki repository.

The repository consists of TypeScript ambient declaration files describing
the MediaWiki client-side JavaScript interface, plus a package manifest and
a console generator script embedded next to the generated Api parameter
declarations.  This file embeds, directly from the sources:

* a per-file inventory of every top-level and namespace-level declaration
  (kind, name, whether it carries an executable body, and its role);
* the package manifest fields;
* the declared TypeScript types that individual claims are about
  (module states, the module store layout, the notification entry points),
  as a small type-expression AST mirroring the source syntax.
-/

namespace TypesMediawiki

/-- Kind of a declaration or source item, as written in the sources. -/
inductive ItemKind where
  | namespaceDecl
  | interfaceDecl
  | typeAlias
  | constDecl
  | functionDecl
  | classDecl
  | referenceDirective
  | globalAugment
  | moduleImport
  | exportAssign
  | exportAsNamespace
  | exportEmpty
  | jsonManifest
  | statement
  deriving DecidableEq, Repr

/-- What a source item is for: the shape of an external runtime value, a
type-level helper alias, module wiring (references, imports, exports and
global augmentation blocks), package-manifest data, or the executable
generator script pasted after the generated Api parameter interfaces. -/
inductive ItemRole where
  | runtimeShape
  | typeHelper
  | moduleWiring
  | manifestData
  | generatorCode
  deriving DecidableEq, Repr

/-- One source item: its kind, source name, role, and whether the source
text gives it an executable body or initializer.  Ambient declarations in
declaration files have no bodies; only the generator script items do. -/
structure Item where
  kind : ItemKind
  name : String
  role : ItemRole
  hasBody : Bool
  deriving DecidableEq, Repr

/-- A source file of the repository: its path under src and the inventory
of its items in source order.  Member signatures of interfaces and classes
are part of the owning declaration and are not listed separately. -/
structure SrcFile where
  path : String
  items : List Item
  deriving DecidableEq, Repr

/-- An ambient namespace declaration. -/
def nsDecl (n : String) : Item := ⟨ItemKind.namespaceDecl, n, ItemRole.runtimeShape, false⟩

/-- An ambient interface declaration. -/
def iface (n : String) : Item := ⟨ItemKind.interfaceDecl, n, ItemRole.runtimeShape, false⟩

/-- A type alias describing a shape of the external runtime. -/
def tyAlias (n : String) : Item := ⟨ItemKind.typeAlias, n, ItemRole.runtimeShape, false⟩

/-- A parametric type-level helper alias (key selection, union massaging),
describing no value of the external platform. -/
def tyHelper (n : String) : Item := ⟨ItemKind.typeAlias, n, ItemRole.typeHelper, false⟩

/-- An ambient declared constant (a signature, no initializer). -/
def constSig (n : String) : Item := ⟨ItemKind.constDecl, n, ItemRole.runtimeShape, false⟩

/-- An ambient function signature (no body). -/
def fnSig (n : String) : Item := ⟨ItemKind.functionDecl, n, ItemRole.runtimeShape, false⟩

/-- An ambient class declaration (member signatures only, no bodies). -/
def classSig (n : String) : Item := ⟨ItemKind.classDecl, n, ItemRole.runtimeShape, false⟩

/-- A triple-slash reference directive naming a path or package. -/
def refDir (n : String) : Item := ⟨ItemKind.referenceDirective, n, ItemRole.moduleWiring, false⟩

/-- A declare-global augmentation block. -/
def globalAug : Item := ⟨ItemKind.globalAugment, "global", ItemRole.moduleWiring, false⟩

/-- A module import statement. -/
def wiringImport : Item := ⟨ItemKind.moduleImport, "", ItemRole.moduleWiring, false⟩

/-- An export-equals assignment. -/
def exportEq (n : String) : Item := ⟨ItemKind.exportAssign, n, ItemRole.moduleWiring, false⟩

/-- An export-as-namespace declaration. -/
def exportNs (n : String) : Item := ⟨ItemKind.exportAsNamespace, n, ItemRole.moduleWiring, false⟩

/-- An empty export marking the file as a module. -/
def exportNone : Item := ⟨ItemKind.exportEmpty, "", ItemRole.moduleWiring, false⟩

/-- The package manifest source item (a JSON object, not a declaration). -/
def manifestItem : Item := ⟨ItemKind.jsonManifest, "package.json", ItemRole.manifestData, false⟩

/-- A constant of the generator script, bound to a computed value. -/
def scriptConst (n : String) : Item := ⟨ItemKind.constDecl, n, ItemRole.generatorCode, true⟩

/-- A function of the generator script, with an executable body. -/
def scriptFn (n : String) : Item := ⟨ItemKind.functionDecl, n, ItemRole.generatorCode, true⟩

/-- The final console-log statement of the generator script. -/
def scriptStmt : Item := ⟨ItemKind.statement, "console.log", ItemRole.generatorCode, true⟩

/-- Inventory of src/index.d.ts (one entry per declaration, in source order). -/
def indexFile : SrcFile := ⟨"index.d.ts", [
  refDir ("mediawiki/index.d.ts"), refDir ("./jquery"), refDir ("./jquery.client"),
  refDir ("./jquery.textSelection"), refDir ("./mediawiki.api"), refDir ("./mediawiki.cldr"),
  refDir ("./mediawiki.cookie"), refDir ("./mediawiki.experiments"), refDir ("./mediawiki.ForeignApi"),
  refDir ("./mediawiki.ForeignApi.core"), refDir ("./mediawiki.jqueryMsg"), refDir ("./mediawiki.language"),
  refDir ("./mediawiki.language.months"), refDir ("./mediawiki.libs.pluralruleparser"), refDir ("./mediawiki.notification"),
  refDir ("./mediawiki.storage"), refDir ("./mediawiki.String"), refDir ("./mediawiki.template"),
  refDir ("./mediawiki.Title"), refDir ("./mediawiki.Uri"), refDir ("./mediawiki.user"),
  refDir ("./mediawiki.util"), refDir ("./mediawiki.visibleTimeout"), exportEq ("mw"),
  exportNs ("mw")]⟩

/-- Inventory of src/jquery/client.d.ts (one entry per declaration, in source order). -/
def jqueryClientFile : SrcFile := ⟨"jquery/client.d.ts", [
  globalAug, iface ("JQueryStatic"), nsDecl ("JQuery"),
  iface ("Client"), nsDecl ("Client"), iface ("Navigator"),
  tyAlias ("ProfileName"), tyAlias ("ComparisonOperator"), tyAlias ("SupportMap"),
  nsDecl ("SupportMap"), tyAlias ("Condition"), tyAlias ("Undirected"),
  iface ("Profile"), tyAlias ("ClientNavigator"), exportNone]⟩

/-- Inventory of src/jquery/collapsibleTabs.d.ts (one entry per declaration, in source order). -/
def jqueryCollapsibleTabsFile : SrcFile := ⟨"jquery/collapsibleTabs.d.ts", [
  iface ("JQueryStatic"), iface ("JQuery"), nsDecl ("JQuery"),
  iface ("CollapsibleTabs"), nsDecl ("CollapsibleTabs"), iface ("Options"),
  iface ("Static")]⟩

/-- Inventory of src/jquery/highlightText.d.ts (one entry per declaration, in source order). -/
def jqueryHighlightTextFile : SrcFile := ⟨"jquery/highlightText.d.ts", [
  globalAug, iface ("JQueryStatic"), iface ("JQuery"),
  nsDecl ("JQuery"), iface ("HighlightText"), nsDecl ("HighlightText"),
  tyAlias ("Method"), iface ("Options"), exportNone,
  nsDecl ("mw"), tyAlias ("QueryParams"), tyHelper ("TypeOrArray"),
  tyHelper ("TypeOrUnionArray"), tyHelper ("ReplaceValue"), tyHelper ("GetOrDefault"),
  tyHelper ("PickOrDefault"), tyHelper ("NoReturn"), tyHelper ("FlipObject")]⟩

/-- Inventory of src/jquery.color/jquery.d.ts (one entry per declaration, in source order). -/
def jqueryColorFile : SrcFile := ⟨"jquery.color/jquery.d.ts", [
  iface ("JQueryStatic"), nsDecl ("JQuery"), iface ("ColorUtil"),
  nsDecl ("ColorUtil"), tyAlias ("Color")]⟩

/-- Inventory of src/mediawiki/loader.d.ts (one entry per declaration, in source order). -/
def mediawikiLoaderFile : SrcFile := ⟨"mediawiki/loader.d.ts", [
  nsDecl ("mw"), nsDecl ("loader"), iface ("Module"),
  tyAlias ("ModuleKey"), tyAlias ("ModuleState"), tyAlias ("ModuleMessages"),
  tyAlias ("ModuleStyle"), tyAlias ("ModuleTemplates"), iface ("ModuleDeclarator"),
  iface ("ModuleRequire"), tyAlias ("ModuleScript"), iface ("ModuleRegistryEntry"),
  fnSig ("addStyleTag"), fnSig ("getState"), fnSig ("impl"),
  fnSig ("implement"), fnSig ("load"), fnSig ("register"),
  fnSig ("register"), fnSig ("state"), constSig ("maxQueryLength"),
  constSig ("moduleRegistry"), fnSig ("addLinkTag"), fnSig ("addScriptTag"),
  fnSig ("enqueue"), constSig ("require"), fnSig ("resolve"),
  fnSig ("work")]⟩

/-- Inventory of src/mediawiki/loader.store.d.ts (one entry per declaration, in source order). -/
def mediawikiLoaderStoreFile : SrcFile := ⟨"mediawiki/loader.store.d.ts", [
  nsDecl ("mw.loader.store"), iface ("Stats"), constSig ("key"),
  constSig ("vary"), fnSig ("add"), fnSig ("clear"),
  fnSig ("get"), fnSig ("init"), fnSig ("load"),
  fnSig ("prune"), fnSig ("toJSON"), constSig ("enabled"),
  constSig ("items"), constSig ("queue"), constSig ("stats"),
  fnSig ("set"), fnSig ("requestUpdate"), constSig ("mediaWiki"),
  nsDecl ("mw"), tyAlias ("ObjectAnalyticEventData"), tyAlias ("AnalyticEventData"),
  iface ("ErrorAnalyticEventData"), iface ("AnalyticEvent"), fnSig ("now"),
  fnSig ("requestIdleCallback"), fnSig ("track"), fnSig ("trackError"),
  constSig ("trackQueue")]⟩

/-- Inventory of src/mediawiki/notification.d.ts (one entry per declaration, in source order). -/
def mediawikiNotificationFile : SrcFile := ⟨"mediawiki/notification.d.ts", [
  nsDecl ("mw"), fnSig ("notify"), iface ("Notification"),
  nsDecl ("Notification"), iface ("Options")]⟩

/-- Inventory of src/mediawiki.ForeignApi.core/index.d.ts (one entry per declaration, in source order). -/
def foreignApiCoreFile : SrcFile := ⟨"mediawiki.ForeignApi.core/index.d.ts", [
  wiringImport, wiringImport, wiringImport,
  wiringImport, wiringImport, constSig ("ForeignApi"),
  constSig ("ForeignRest"), nsDecl ("mw"), iface ("Message")]⟩

/-- Inventory of src/mediawiki.api/Api.d.ts (one entry per declaration, in source order). -/
def mediawikiApiFile : SrcFile := ⟨"mediawiki.api/Api.d.ts", [
  nsDecl ("mw"), classSig ("Api"), nsDecl ("Api"),
  tyAlias ("timestamp"), tyAlias ("expiry"), tyAlias ("namespace"),
  tyAlias ("limit"), tyAlias ("password"), tyAlias ("upload"),
  tyHelper ("OneOrMore"), tyAlias ("Assert"), tyAlias ("TokenType"),
  tyAlias ("LegacyTokenType"), iface ("Params"), tyAlias ("Response"),
  iface ("Revision"), tyAlias ("EditResult"), iface ("EditFailureResult"),
  iface ("EditSuccessResult"), iface ("EditNoChangeResult"), iface ("EditChangedResult"),
  iface ("AssertUser"), iface ("WatchStatus"), iface ("RollbackInfo"),
  iface ("FinishUpload"), iface ("Options"), nsDecl ("mw.Api"),
  iface ("CheckMatchParams"), iface ("CheckSyntaxParams"), iface ("EvalExpressionParams"),
  iface ("UnblockAutopromoteParams"), iface ("AbuseLogPrivateDetailsParams"), iface ("AcquireTempUserNameParams"),
  iface ("AntiSpoofParams"), iface ("BlockParams"), iface ("BounceHandlerParams"),
  iface ("CategoryTreeParams"), iface ("CentralAuthTokenParams"), iface ("CentralNoticeCdnCacheUpdateBannerParams"),
  iface ("CentralNoticeChoiceDataParams"), iface ("CentralNoticeQueryCampaignParams"), iface ("ChangeAuthenticationDataParams"),
  iface ("ChangeContentModelParams"), iface ("CheckTokenParams"), iface ("ConfigDumpParams"),
  iface ("MappingDumpParams"), iface ("ProfilesDumpParams"), iface ("SettingsDumpParams"),
  iface ("ClearHasMsgParams"), iface ("ClientLoginParams"), iface ("CollectionParams"),
  iface ("ComparePagesParams"), iface ("AMCreateAccountParams"), iface ("CreateLocalAccountParams"),
  iface ("CSPReportParams"), iface ("ContentTranslationDeleteParams"), iface ("ContentTranslationPublishParams"),
  iface ("SectionTranslationPublishParams"), iface ("ContentTranslationSaveParams"), iface ("ContentTranslationSuggestionListParams"),
  iface ("ContentTranslationTokenParams"), iface ("DeleteParams"), iface ("DeleteGlobalAccountParams"),
  iface ("DiscussionToolsCompareParams"), iface ("DiscussionToolsEditParams"), iface ("DiscussionToolsFindCommentParams"),
  iface ("DiscussionToolsGetSubscriptionsParams"), iface ("DiscussionToolsPageInfoParams"), iface ("DiscussionToolsPreviewParams"),
  iface ("DiscussionToolsSubscribeParams"), iface ("EchoMarkReadParams"), iface ("EchoMarkSeenParams"),
  iface ("EchoMuteParams"), iface ("EchoPushSubscriptionsParams"), iface ("EditPageParams"),
  iface ("EditMassMessageListParams"), iface ("EmailUserParams"), iface ("ExpandTemplatesParams"),
  iface ("FancyCaptchaReloadParams"), iface ("FeaturedFeedsParams"), iface ("FeedContributionsParams"),
  iface ("FeedRecentChangesParams"), iface ("FeedWatchlistParams"), iface ("FileRevertParams"),
  iface ("FlowParams"), iface ("ParsoidUtilsFlowParams"), iface ("FlowThankParams"),
  iface ("GlobalBlockParams"), iface ("GlobalPreferenceOverridesParams"), iface ("GlobalPreferencesParams"),
  iface ("GlobalUserRightsParams"), iface ("InvalidateImageRecommendationParams"), iface ("InvalidatePersonalizedPraiseSuggestionParams"),
  iface ("ManageMentorListParams"), iface ("MentorDashboardUpdateDataParams"), iface ("SetMenteeStatusParams"),
  iface ("SetMentorParams"), iface ("StarMenteeParams"), iface ("HelpParams"),
  iface ("HelpPanelPostQuestionParams"), iface ("QuestionStoreParams"), iface ("DisabledParams"),
  iface ("ImportParams"), iface ("FormatJsonParams"), iface ("JCParams"),
  iface ("JCDataParams"), iface ("FormatJsonParams"), iface ("LanguageSearchParams"),
  iface ("LinkAccountParams"), iface ("LoginParams"), iface ("LogoutParams"),
  iface ("ManageTagsParams"), iface ("MassMessageParams"), iface ("MergeHistoryParams"),
  iface ("MoveParams"), iface ("FormatNoneParams"), iface ("OATHValidateParams"),
  iface ("OpenSearchParams"), iface ("OptionsParams"), iface ("ParamInfoParams"),
  iface ("ParseParams"), iface ("ParserMigrationParams"), iface ("PatrolParams"),
  iface ("FormatPhpParams"), iface ("FormatPhpParams"), iface ("ProtectParams"),
  iface ("PurgeParams"), iface ("QueryParams"), iface ("FormatJsonParams"),
  iface ("ReadingListsParams"), iface ("RemoveAuthenticationDataParams"), iface ("ResetPasswordParams"),
  iface ("RevisionDeleteParams"), iface ("RollbackParams"), iface ("RsdParams"),
  iface ("SanitizeMapDataParams"), iface ("ScribuntoConsoleParams"), iface ("SecurePollAuthParams"),
  iface ("SetGlobalAccountStatusParams"), iface ("SetNotificationTimestampParams"), iface ("SetPageLanguageParams"),
  iface ("ShortenUrlParams"), iface ("SiteMatrixParams"), iface ("SpamBlacklistParams"),
  iface ("StashEditParams"), iface ("StreamConfigsParams"), iface ("StrikeVoteParams"),
  iface ("SectionTranslationDeleteParams"), iface ("SectionTranslationSaveParams"), iface ("TagParams"),
  iface ("TemplateDataParams"), iface ("CoreThankParams"), iface ("TimedTextParams"),
  iface ("TitleBlacklistParams"), iface ("TorBlockParams"), iface ("TranscodeResetParams"),
  iface ("ULSLocalizationParams"), iface ("ULSSetLanguageParams"), iface ("UnblockParams"),
  iface ("UndeleteParams"), iface ("RemoveAuthenticationDataParams"), iface ("UploadParams"),
  iface ("UserrightsParams"), iface ("ValidatePasswordParams"), iface ("VisualEditorParams"),
  iface ("VisualEditorEditParams"), iface ("WatchParams"), iface ("WebappManifestParams"),
  iface ("WebAuthnParams"), iface ("WikimediaEventsBlockedEditParams"), iface ("FormatXmlParams"),
  iface ("FormatXmlParams"), iface ("QueryAbuseFiltersParams"), iface ("QueryAbuseLogParams"),
  iface ("QueryAllCategoriesParams"), iface ("QueryAllDeletedRevisionsParams"), iface ("QueryAllLinksParams"),
  iface ("QueryAllImagesParams"), iface ("QueryAllLinksParams"), iface ("QueryAllMessagesParams"),
  iface ("QueryAllPagesParams"), iface ("QueryAllLinksParams"), iface ("QueryAllRevisionsParams"),
  iface ("QueryAllLinksParams"), iface ("QueryAllUsersParams"), iface ("QueryAuthManagerInfoParams"),
  iface ("QueryBabelParams"), iface ("QueryBacklinksParams"), iface ("QueryBetaFeaturesParams"),
  iface ("QueryBlocksParams"), iface ("QueryCategoriesParams"), iface ("QueryCategoryInfoParams"),
  iface ("QueryCategoryMembersParams"), iface ("CentralNoticeQueryActiveCampaignsParams"), iface ("CentralNoticeLogsParams"),
  iface ("QueryCheckUserParams"), iface ("QueryCheckUserLogParams"), iface ("QueryBuildDocumentParams"),
  iface ("QueryCompSuggestBuildDocParams"), iface ("QueryCirrusDocParams"), iface ("QueryContentTranslationParams"),
  iface ("QueryContentTranslationCorporaParams"), iface ("QueryContentTranslationLanguageTrendParams"), iface ("QueryContentTranslationStatsParams"),
  iface ("QueryContentTranslationSuggestionsParams"), iface ("QueryContributorsParams"), iface ("QueryCoordinatesParams"),
  iface ("QueryDeletedTranslationsParams"), iface ("QueryPublishedTranslationsParams"), iface ("QueryTranslatorStatsParams"),
  iface ("QueryDeletedRevisionsParams"), iface ("QueryDeletedrevsParams"), iface ("DescriptionParams"),
  iface ("QueryDuplicateFilesParams"), iface ("QueryBacklinksParams"), iface ("QueryExternalLinksParams"),
  iface ("QueryExtractsParams"), iface ("QueryExtLinksUsageParams"), iface ("QueryFeatureUsageParams"),
  iface ("QueryFilearchiveParams"), iface ("QueryFileRepoInfoParams"), iface ("QueryBacklinkspropParams"),
  iface ("QueryPropFlowInfoParams"), iface ("QueryGadgetCategoriesParams"), iface ("QueryGadgetsParams"),
  iface ("QueryGeoSearchElasticParams"), iface ("QueryGlobalAllUsersParams"), iface ("QueryGlobalBlocksParams"),
  iface ("QueryGlobalGroupsParams"), iface ("QueryGlobalPreferencesParams"), iface ("QueryGlobalRenameStatusParams"),
  iface ("QueryGlobalUsageParams"), iface ("QueryGlobalUserInfoParams"), iface ("QueryImageSuggestionDataParams"),
  iface ("QueryMenteeStatusParams"), iface ("QueryMentorListParams"), iface ("QueryMentorMenteeParams"),
  iface ("QueryMentorStatusParams"), iface ("QueryNextSuggestedTaskTypeParams"), iface ("QueryStarredMenteesParams"),
  iface ("QueryGrowthTasksParams"), iface ("QueryImageInfoParams"), iface ("QueryImagesParams"),
  iface ("QueryBacklinksParams"), iface ("QueryInfoParams"), iface ("QueryIWBacklinksParams"),
  iface ("QueryIWLinksParams"), iface ("QueryLangBacklinksParams"), iface ("QueryLangLinksParams"),
  iface ("QueryLangLinksCountParams"), iface ("QueryLanguageinfoParams"), iface ("QueryLinksParams"),
  iface ("QueryBacklinkspropParams"), iface ("QueryLintErrorsParams"), iface ("QueryLinterStatsParams"),
  iface ("QueryLogEventsParams"), iface ("QueryMapDataParams"), iface ("QueryMMContentParams"),
  iface ("QueryMostViewedParams"), iface ("QueryMyStashedFilesParams"), iface ("EchoNotificationsParams"),
  iface ("QueryOATHParams"), iface ("QueryORESParams"), iface ("QueryPageAssessmentsParams"),
  iface ("QueryPageImagesParams"), iface ("QueryPagePropNamesParams"), iface ("QueryPagePropsParams"),
  iface ("QueryPagesWithPropParams"), iface ("PageTermsParams"), iface ("QueryPageViewsParams"),
  iface ("QueryPrefixSearchParams"), iface ("QueryProjectPagesParams"), iface ("QueryProjectsParams"),
  iface ("QueryProtectedTitlesParams"), iface ("QueryQueryPageParams"), iface ("QueryRandomParams"),
  iface ("QueryReadingListEntriesParams"), iface ("QueryReadingListsParams"), iface ("QueryRecentChangesParams"),
  iface ("QueryBacklinkspropParams"), iface ("QueryRevisionsParams"), iface ("QuerySearchParams"),
  iface ("QuerySiteinfoParams"), iface ("QuerySiteViewsParams"), iface ("QueryStashImageInfoParams"),
  iface ("QueryTagsParams"), iface ("QueryLinksParams"), iface ("QueryTokensParams"),
  iface ("QueryBacklinkspropParams"), iface ("TranscodeStatusParams"), iface ("EchoUnreadNotificationPagesParams"),
  iface ("QueryUserContribsParams"), iface ("QueryUserInfoParams"), iface ("QueryUsersParams"),
  iface ("QueryVideoInfoParams"), iface ("QueryWatchlistParams"), iface ("QueryWatchlistRawParams"),
  iface ("PropsEntityUsageParams"), iface ("ListEntityUsageParams"), iface ("ClientInfoParams"),
  iface ("QueryWikiSetsParams"), scriptConst ("data"), scriptConst ("queryApiData"),
  scriptFn ("processParamInfo"), scriptFn ("indent"), scriptFn ("getInterfaceName"),
  scriptFn ("formatInterface"), scriptConst ("actionsTypes"), scriptConst ("queryTypes"),
  scriptStmt]⟩

/-- Inventory of src/mediawiki.base/loader.d.ts (one entry per declaration, in source order). -/
def mediawikiBaseLoaderFile : SrcFile := ⟨"mediawiki.base/loader.d.ts", [
  nsDecl ("mw.loader"), fnSig ("getModuleNames"), fnSig ("getScript"),
  fnSig ("using"), nsDecl ("mw"), constSig ("user"),
  iface ("User"), nsDecl ("User"), iface ("Info"),
  iface ("Options"), iface ("Tokens")]⟩

/-- Inventory of src/mediawiki.base/mw.d.ts (one entry per declaration, in source order). -/
def mediawikiBaseMwFile : SrcFile := ⟨"mediawiki.base/mw.d.ts", [
  nsDecl ("mw"), iface ("AnalyticEventCallback"), constSig ("libs"),
  constSig ("widgets"), fnSig ("format"), fnSig ("message"),
  fnSig ("msg"), fnSig ("notify"), fnSig ("trackSubscribe"),
  fnSig ("trackUnsubscribe"), nsDecl ("mw.log"), fnSig ("deprecate"),
  fnSig ("error"), fnSig ("makeDeprecated")]⟩

/-- Inventory of src/unnamed/part_000 (one entry per declaration, in source order). -/
def unnamedPart0File : SrcFile := ⟨"unnamed/part_000", [
  nsDecl ("mw"), nsDecl ("notification"), constSig ("autoHideLimit"),
  constSig ("autoHideSeconds"), constSig ("defaults"), fnSig ("pause"),
  fnSig ("resume"), fnSig ("notify")]⟩

/-- Inventory of src/unnamed/part_001 (one entry per declaration, in source order). -/
def unnamedPart1File : SrcFile := ⟨"unnamed/part_001", [
  nsDecl ("mw.language"), nsDecl ("months"), constSig ("abbrev"),
  constSig ("keys"), constSig ("genitive"), constSig ("names")]⟩

/-- Inventory of src/unnamed/part_002 (one entry per declaration, in source order). -/
def unnamedPart2File : SrcFile := ⟨"unnamed/part_002", [
  nsDecl ("mw"), tyAlias ("QueryParams"), tyHelper ("TypeOrArray"),
  tyHelper ("TypeOrUnionArray"), tyHelper ("ReplaceValue"), tyHelper ("GetOrDefault"),
  tyHelper ("PickOrDefault"), tyHelper ("NoReturn")]⟩

/-- Inventory of src/unnamed/part_003 (one entry per declaration, in source order). -/
def unnamedPart3File : SrcFile := ⟨"unnamed/part_003", [
  globalAug, nsDecl ("mw"), nsDecl ("language"),
  constSig ("data"), constSig ("months"), fnSig ("bcp47"),
  fnSig ("convertGrammar"), fnSig ("convertNumber"), fnSig ("convertPlural"),
  fnSig ("gender"), fnSig ("getData"), fnSig ("getDigitTransformTable"),
  fnSig ("getFallbackLanguageChain"), fnSig ("getFallbackLanguages"), fnSig ("getSeparatorTransformTable"),
  fnSig ("listToText"), fnSig ("setData"), fnSig ("setData"),
  fnSig ("preConvertPlural"), exportNone, nsDecl ("mw"),
  fnSig ("log"), nsDecl ("log"), fnSig ("warn")]⟩

/-- Inventory of src/unnamed/part_004 (one entry per declaration, in source order). -/
def unnamedPart4File : SrcFile := ⟨"unnamed/part_004", [
  manifestItem]⟩


/-- All source files of the repository, in directory order. -/
def allSourceFiles : List SrcFile :=
  [indexFile, jqueryColorFile, jqueryClientFile, jqueryCollapsibleTabsFile,
   jqueryHighlightTextFile, foreignApiCoreFile, mediawikiApiFile,
   mediawikiBaseLoaderFile, mediawikiBaseMwFile, mediawikiLoaderFile,
   mediawikiLoaderStoreFile, mediawikiNotificationFile, unnamedPart0File,
   unnamedPart1File, unnamedPart2File, unnamedPart3File, unnamedPart4File]

/-- Every item of every source file. -/
def allItems : List Item := allSourceFiles.foldr (fun f acc => f.items ++ acc) []

/-!
### The package manifest (src/unnamed/part_004)
-/

/-- The fields of the package manifest.  The source manifest has no key for
peer dependencies at all; that absence is modelled as the empty list. -/
structure Manifest where
  name : String
  version : String
  typesEntry : String
  files : List String
  dependencies : List (String × String)
  devDependencies : List (String × String)
  peerDependencies : List (String × String)
  deriving DecidableEq, Repr

/-- The package manifest, field by field from the source JSON. -/
def packageManifest : Manifest :=
  ⟨"types-mediawiki", "1.8.1", "index.d.ts",
   ["mw", "jquery", "vue", "api_params", "index.d.ts"],
   [("@types/jquery", "^3.5.5"), ("@types/oojs-ui", "^0.46.0"), ("vue", "3.3.9")],
   [("husky", "^4.3.7"), ("lint-staged", "^10.5.3"), ("prettier", "^2.2.1"),
    ("tsd", "^0.31.0"), ("tslint-config-prettier", "^1.18.0"), ("typescript", "^4.2.2")],
   []⟩

/-- Whether the first list of characters is an initial segment of the
second. -/
def startsWithChars : List Char → List Char → Bool
  | [], _ => true
  | _ :: _, [] => false
  | c :: cs, d :: ds => c == d && startsWithChars cs ds

/-- A package is type-only when it is published under the types scope. -/
def isTypePackage (n : String) : Bool :=
  startsWithChars (String.toList ("@types/")) (String.toList n)

/-!
### Declared TypeScript types, as a small type-expression AST
-/

/-- Type expressions as written in the declaration sources. -/
inductive TsTy where
  | str
  | num
  | boolTy
  | anyTy
  | nullTy
  | lit (s : String)
  | boolLit (b : Bool)
  | ref (n : String)
  | app1 (n : String) (a : TsTy)
  | app2 (n : String) (a b : TsTy)
  | arr (t : TsTy)
  | union (a b : TsTy)
  | objNil
  | objCons (field : String) (t : TsTy) (rest : TsTy)
  | templateKey (a b : TsTy)
  deriving DecidableEq, Repr

/-- Collect the string literal members of a union type. -/
def unionLiterals : TsTy → List String
  | TsTy.lit s => [s]
  | TsTy.union a b => unionLiterals a ++ unionLiterals b
  | _ => []

/-- Whether a declared type pins a concrete literal value. -/
def fixesLiteralValue : TsTy → Bool
  | TsTy.lit _ => true
  | TsTy.boolLit _ => true
  | _ => false

/-- Whether a declared type fixes an object field layout. -/
def fixesObjectLayout : TsTy → Bool
  | TsTy.objCons _ _ _ => true
  | _ => false

/-- The public ModuleState union of mw.loader, in source order
(mediawiki loader declarations, lines 21 to 28). -/
def moduleStateTy : TsTy :=
  .union (.lit ("error")) (.union (.lit ("executing")) (.union (.lit ("loaded"))
    (.union (.lit ("loading")) (.union (.lit ("missing")) (.union (.lit ("ready"))
      (.lit ("registered")))))))

/-- The declared type of the state field of ModuleRegistryEntry, in source
order (mediawiki loader declarations, line 74). -/
def registryEntryStateTy : TsTy :=
  .union (.lit ("error")) (.union (.lit ("loaded")) (.union (.lit ("missing"))
    (.union (.lit ("registered")) (.lit ("ready")))))

/-- The declared return type of mw.loader.getState: ModuleState or null. -/
def getStateReturnTy : TsTy := .union (.ref ("ModuleState")) .nullTy

/-- The declared type of mw.loader.store.key: a plain string. -/
def storeKeyTy : TsTy := .str

/-- The declared type of mw.loader.store.vary: a plain string. -/
def storeVaryTy : TsTy := .str

/-- The declared return type of mw.loader.store.toJSON: an object with
fields items, vary and asOf. -/
def storeToJSONReturnTy : TsTy :=
  .objCons ("items") .str (.objCons ("vary") .str (.objCons ("asOf") .num .objNil))

/-- The declared ModuleKey alias: a template key of two string holes
around a separator, written name-at-version in the sources. -/
def moduleKeyTy : TsTy := .templateKey .str .str

/-- The declared type of mw.loader.store.items: a record keyed by
ModuleKey with arbitrary values. -/
def storeItemsTy : TsTy := .app2 ("Record") (.ref ("ModuleKey")) .anyTy

/-- The declared return type of mw.loader.store.get: a string or false. -/
def storeGetReturnTy : TsTy := .union .str (.boolLit false)

/-!
### Declared function signatures of the notification entry points
-/

/-- A declared parameter: name, type, and optionality. -/
structure TsParam where
  name : String
  ty : TsTy
  optional : Bool
  deriving DecidableEq, Repr

/-- A declared function signature: parameters and return type. -/
structure TsFnSig where
  params : List TsParam
  ret : TsTy
  deriving DecidableEq, Repr

/-- The message parameter type both notification entry points declare. -/
def notifyMessageTy : TsTy :=
  .union .str (.union (.ref ("Message")) (.union (.ref ("JQuery"))
    (.union (.ref ("HTMLElement")) (.arr (.ref ("HTMLElement"))))))

/-- The options parameter type both notification entry points declare. -/
def notifyOptionsTy : TsTy := .app1 ("Partial") (.ref ("Notification.Options"))

/-- The declared signature of mw.notify (mediawiki notification
declarations, lines 11 to 14): it returns a jQuery promise of the
Notification object. -/
def mwNotifySig : TsFnSig :=
  ⟨[⟨"message", notifyMessageTy, false⟩, ⟨"options", notifyOptionsTy, true⟩],
   .app1 ("JQuery.Promise") (.ref ("Notification"))⟩

/-- The declared signature of mw.notification.notify (src/unnamed/part_000,
lines 57 to 60): it returns the Notification object itself. -/
def mwNotificationNotifySig : TsFnSig :=
  ⟨[⟨"message", notifyMessageTy, false⟩, ⟨"options", notifyOptionsTy, true⟩],
   .ref ("Notification")⟩

/-!
### Declared operations with their documented error behavior
-/

/-- A declared operation: its name, whether its doc comment attributes a
throw to the declared runtime function, whether its declared return type
carries an in-band failure value, and the body the source gives it (none
for every ambient declaration in this repository). -/
structure OpSig where
  name : String
  docThrows : Bool
  inBandErrorReturn : Bool
  impl : Option String
  deriving DecidableEq, Repr

/-- The operations of mw.loader declared in the mediawiki loader file.
Only load (line 206) and resolve (line 344) carry a throws tag. -/
def loaderOps : List OpSig :=
  [⟨"addStyleTag", false, false, none⟩, ⟨"getState", false, false, none⟩,
   ⟨"impl", false, false, none⟩, ⟨"implement", false, false, none⟩,
   ⟨"load", true, false, none⟩, ⟨"register", false, false, none⟩,
   ⟨"state", false, false, none⟩, ⟨"addLinkTag", false, false, none⟩,
   ⟨"addScriptTag", false, false, none⟩, ⟨"enqueue", false, false, none⟩,
   ⟨"resolve", true, false, none⟩, ⟨"work", false, false, none⟩]

/-- The operations of mw.loader declared in the base loader file. -/
def baseLoaderOps : List OpSig :=
  [⟨"getModuleNames", false, false, none⟩, ⟨"getScript", false, false, none⟩,
   ⟨"using", false, false, none⟩]

/-- The operations of mw.loader.store.  Only get declares an in-band
failure value: its return type is a string or false (line 54). -/
def storeOps : List OpSig :=
  [⟨"add", false, false, none⟩, ⟨"clear", false, false, none⟩,
   ⟨"get", false, true, none⟩, ⟨"init", false, false, none⟩,
   ⟨"load", false, false, none⟩, ⟨"prune", false, false, none⟩,
   ⟨"toJSON", false, false, none⟩, ⟨"set", false, false, none⟩,
   ⟨"requestUpdate", false, false, none⟩]

/-!
### The entry point and the declaration directories
-/

/-- The reference directives of the entry point, from its inventory. -/
def entryReferences : List String :=
  (indexFile.items.filter (fun i => i.kind == ItemKind.referenceDirective)).map Item.name

/-- Whether some entry reference directive names the given declaration
part, either as a relative package reference or as a path to its index. -/
def entryReferencesPart (p : String) : Bool :=
  entryReferences.any (fun r => r == "./" ++ p || r == p ++ "/index.d.ts")

/-- The directories of declaration files in the repository sources (the
directory of unnamed parts is excluded: their original locations are not
recorded). -/
def declarationDirs : List String :=
  ["jquery", "jquery.color", "mediawiki", "mediawiki.ForeignApi.core",
   "mediawiki.api", "mediawiki.base"]

/-!
### Claim predicates
-/

/-- The declaration kinds the specification lists as the only permitted
content: namespaces, interfaces, type aliases, declared constants and
function signatures. -/
def specAmbientKinds : List ItemKind :=
  [ItemKind.namespaceDecl, ItemKind.interfaceDecl, ItemKind.typeAlias,
   ItemKind.constDecl, ItemKind.functionDecl]

/-- All ambient declaration kinds occurring in the declaration files:
the five above plus ambient classes. -/
def ambientKinds : List ItemKind :=
  [ItemKind.namespaceDecl, ItemKind.interfaceDecl, ItemKind.typeAlias,
   ItemKind.constDecl, ItemKind.functionDecl, ItemKind.classDecl]

/-- Module wiring kinds: references, global augmentation, imports and the
export forms. -/
def wiringKinds : List ItemKind :=
  [ItemKind.referenceDirective, ItemKind.globalAugment, ItemKind.moduleImport,
   ItemKind.exportAssign, ItemKind.exportAsNamespace, ItemKind.exportEmpty]

/-- Whether an item is an ambient type declaration of one of the five kinds
the specification lists, with no executable implementation. -/
def c1ItemOk (i : Item) : Bool := specAmbientKinds.contains i.kind && !i.hasBody

/-- The first claim as stated: every source file contains only such items. -/
def c1ClaimHolds : Bool := allSourceFiles.all (fun f => f.items.all c1ItemOk)

/-- The second claim as stated: every package dependency declared in the
manifest is recorded as a peer dependency on a type-only package. -/
def c2ClaimHolds : Bool :=
  packageManifest.dependencies.all
    (fun d => packageManifest.peerDependencies.contains d && isTypePackage d.1)

/-- The third claim as stated: none of the module store declarations fixes
a persistent storage key value, a cache-vary value, or a serialized store
layout. -/
def c3ClaimHolds : Bool :=
  !(fixesLiteralValue storeKeyTy) && !(fixesLiteralValue storeVaryTy) &&
  !(fixesObjectLayout storeToJSONReturnTy)

/-- The fourth claim as stated: every item of every source file describes a
runtime value shape of the external wiki platform. -/
def c4ClaimHolds : Bool :=
  allSourceFiles.all (fun f => f.items.all (fun i => i.role == ItemRole.runtimeShape))

/-- The sixth claim as stated: the entry point references every declaration
directory and exports mw both as the module export and as a global ambient
namespace. -/
def c6ClaimHolds : Bool :=
  declarationDirs.all entryReferencesPart &&
  indexFile.items.contains (exportEq ("mw")) &&
  indexFile.items.contains (exportNs ("mw"))

/-- Whether an item list declares a bodiless ambient function of the name. -/
def declaresFunction (its : List Item) (n : String) : Bool :=
  its.any (fun i => i.kind == ItemKind.functionDecl && i.name == n && !i.hasBody)

/-!
### Theorems on the claims
-/

set_option maxRecDepth 16384

/-- C1 counterexample: the Api declarations source file contains the
generator script function processParamInfo, which carries an executable
body, so not every source file of the repository contains only ambient
type declarations without executable implementation: the claim predicate
fails on the repository. -/
theorem c1_counterexample :
    scriptFn ("processParamInfo") ∈ mediawikiApiFile.items ∧
    mediawikiApiFile ∈ allSourceFiles ∧
    c1ItemOk (scriptFn ("processParamInfo")) = false ∧
    c1ClaimHolds = false := by
  refine ⟨by decide, by decide, by decide, by decide⟩

/-- C1 amended: every item of every source file is an ambient declaration
(namespace, interface, class, type alias, declared constant or function
signature) or module wiring with no executable body, except the package
manifest JSON and the Api-params generator script; and the only items that
carry executable bodies are the generator script items. -/
theorem c1_amended_ambient_only :
    (allSourceFiles.all (fun f => f.items.all (fun i =>
      ((ambientKinds.contains i.kind || wiringKinds.contains i.kind) && !i.hasBody)
      || i.role == ItemRole.manifestData || i.role == ItemRole.generatorCode))) = true ∧
    (allItems.filter (fun i => i.hasBody)).all
      (fun i => i.role == ItemRole.generatorCode) = true := by
  refine ⟨by decide, by decide⟩

/-- C2 counterexample: vue at version 3.3.9 is declared under dependencies,
the manifest declares no peer dependencies at all, and vue is not a
type-only package, so not every declared package dependency is a peer
dependency on a type-only package. -/
theorem c2_counterexample :
    ("vue", "3.3.9") ∈ packageManifest.dependencies ∧
    packageManifest.peerDependencies = [] ∧
    isTypePackage ("vue") = false ∧
    c2ClaimHolds = false := by
  refine ⟨by decide, by decide, by decide, by decide⟩

/-- C2 amended: the manifest publishes the declaration files with a name, a
version, a types entry and included file globs, and declares its packages
under the regular dependencies field with no peer dependencies: two of the
three are type-only packages of the jQuery ecosystem and the third is the
vue package. -/
theorem c2_amended_manifest :
    packageManifest.name = "types-mediawiki" ∧
    packageManifest.version = "1.8.1" ∧
    packageManifest.typesEntry = "index.d.ts" ∧
    packageManifest.files = ["mw", "jquery", "vue", "api_params", "index.d.ts"] ∧
    packageManifest.peerDependencies = [] ∧
    packageManifest.dependencies.map Prod.fst = ["@types/jquery", "@types/oojs-ui", "vue"] ∧
    (packageManifest.dependencies.filter (fun d => isTypePackage d.1)).map Prod.fst
      = ["@types/jquery", "@types/oojs-ui"] := by
  refine ⟨rfl, rfl, rfl, rfl, rfl, by decide, by decide⟩

/-- C3 counterexample: the declared return type of mw.loader.store.toJSON
is the object layout with fields items, vary and asOf, so the declarations
do fix the serialized shape of the persisted module store. -/
theorem c3_counterexample :
    storeToJSONReturnTy =
      TsTy.objCons ("items") TsTy.str
        (TsTy.objCons ("vary") TsTy.str (TsTy.objCons ("asOf") TsTy.num TsTy.objNil)) ∧
    fixesObjectLayout storeToJSONReturnTy = true ∧
    c3ClaimHolds = false := ⟨rfl, rfl, rfl⟩

/-- C3 amended: the declarations fix no concrete storage key or vary value,
both being declared as plain strings, but they do fix the persisted layout:
the store serializes as an object with fields items, vary and asOf, and its
items are recorded under template keys of name-at-version shape. -/
theorem c3_amended_store_layout :
    fixesLiteralValue storeKeyTy = false ∧
    fixesLiteralValue storeVaryTy = false ∧
    fixesObjectLayout storeToJSONReturnTy = true ∧
    storeItemsTy = TsTy.app2 ("Record") (TsTy.ref ("ModuleKey")) TsTy.anyTy ∧
    moduleKeyTy = TsTy.templateKey TsTy.str TsTy.str := ⟨rfl, rfl, rfl, rfl, rfl⟩

/-- C4 counterexample: the manifest file content is package metadata and
the GetOrDefault alias is a type-level key-selection helper; neither
describes a runtime value of the external platform, so not all source
content does. -/
theorem c4_counterexample :
    manifestItem ∈ unnamedPart4File.items ∧
    tyHelper ("GetOrDefault") ∈ unnamedPart2File.items ∧
    (manifestItem.role == ItemRole.runtimeShape) = false ∧
    ((tyHelper ("GetOrDefault")).role == ItemRole.runtimeShape) = false ∧
    c4ClaimHolds = false := by
  refine ⟨by decide, by decide, by decide, by decide, by decide⟩

/-- C4 amended: items describing runtime value shapes are exactly bodiless
ambient declarations; the remaining content is type-level helper aliases,
bodiless module wiring, the single package manifest, and the generator
script, whose items all carry bodies. -/
theorem c4_amended_roles :
    (allItems.filter (fun i => i.role == ItemRole.runtimeShape)).all
      (fun i => ambientKinds.contains i.kind && !i.hasBody) = true ∧
    (allItems.filter (fun i => i.role == ItemRole.typeHelper)).all
      (fun i => i.kind == ItemKind.typeAlias && !i.hasBody) = true ∧
    (allItems.filter (fun i => i.role == ItemRole.moduleWiring)).all
      (fun i => wiringKinds.contains i.kind && !i.hasBody) = true ∧
    (allItems.filter (fun i => i.role == ItemRole.manifestData)).map Item.name
      = ["package.json"] ∧
    (allItems.filter (fun i => i.role == ItemRole.generatorCode)).all
      (fun i => i.hasBody) = true := by
  refine ⟨by decide, by decide, by decide, by decide, by decide⟩

/-- C5: the declarations cover the full module-loader protocol interface:
registration (register), dependency resolution (resolve), fetch and
execution (load, using, impl) and local persistence (the mw.loader.store
namespace with its operations), and none of these declarations carries an
implementation. -/
theorem c5_loader_protocol_interface :
    declaresFunction mediawikiLoaderFile.items ("register") = true ∧
    declaresFunction mediawikiLoaderFile.items ("resolve") = true ∧
    declaresFunction mediawikiLoaderFile.items ("load") = true ∧
    declaresFunction mediawikiBaseLoaderFile.items ("using") = true ∧
    declaresFunction mediawikiLoaderFile.items ("impl") = true ∧
    nsDecl ("mw.loader.store") ∈ mediawikiLoaderStoreFile.items ∧
    (["add", "clear", "get", "init", "load", "prune", "toJSON", "set",
      "requestUpdate"].all
        (fun n => declaresFunction mediawikiLoaderStoreFile.items n)) = true ∧
    mediawikiLoaderFile.items.all (fun i => !i.hasBody) = true ∧
    mediawikiLoaderStoreFile.items.all (fun i => !i.hasBody) = true ∧
    mediawikiBaseLoaderFile.items.all (fun i => !i.hasBody) = true := by
  refine ⟨by decide, by decide, by decide, by decide, by decide, by decide,
    by decide, by decide, by decide, by decide⟩

/-- C6 counterexample: the jquery.color and mediawiki.base declaration
directories are not named by any reference directive of the entry point,
so the entry point does not reference every declaration part. -/
theorem c6_counterexample :
    entryReferencesPart ("jquery.color") = false ∧
    entryReferencesPart ("mediawiki.base") = false ∧
    ("jquery.color") ∈ declarationDirs ∧
    ("mediawiki.base") ∈ declarationDirs ∧
    c6ClaimHolds = false := by
  refine ⟨by decide, by decide, by decide, by decide, by decide⟩

/-- C6 amended: the entry point exports mw both as the module export and as
a global ambient namespace, and carries twenty-three reference directives
naming the root mediawiki declarations and twenty-two declaration
packages, which include the jquery, mediawiki.api and
mediawiki.ForeignApi.core parts but not the jquery.color or mediawiki.base
parts. -/
theorem c6_amended_entry_point :
    indexFile.items.contains (exportEq ("mw")) = true ∧
    indexFile.items.contains (exportNs ("mw")) = true ∧
    entryReferences.length = 23 ∧
    entryReferencesPart ("mediawiki") = true ∧
    entryReferencesPart ("jquery") = true ∧
    entryReferencesPart ("mediawiki.api") = true ∧
    entryReferencesPart ("mediawiki.ForeignApi.core") = true ∧
    entryReferencesPart ("jquery.color") = false ∧
    entryReferencesPart ("mediawiki.base") = false := by
  refine ⟨by decide, by decide, by decide, by decide, by decide, by decide,
    by decide, by decide, by decide⟩

/-- C7: no declared operation of the loader, base loader or store carries
an implementation, and across the repository every ambient function
declaration is bodiless, so no runtime error path belongs to this
repository itself; the documented throw tags (on load and resolve) and the
in-band false return (of store.get) are attached to exactly these bodiless
declarations of the described external runtime. -/
theorem c7_no_repository_error_paths :
    (loaderOps ++ baseLoaderOps ++ storeOps).all
      (fun op => op.impl == Option.none) = true ∧
    (loaderOps.filter OpSig.docThrows).map OpSig.name = ["load", "resolve"] ∧
    (storeOps.filter OpSig.inBandErrorReturn).map OpSig.name = ["get"] ∧
    storeGetReturnTy = TsTy.union TsTy.str (TsTy.boolLit false) ∧
    (allItems.filter (fun i =>
      i.kind == ItemKind.functionDecl && !(i.role == ItemRole.generatorCode))).all
      (fun i => !i.hasBody) = true := by
  refine ⟨by decide, by decide, by decide, rfl, by decide⟩

/-- C9: the declared registry entry states are exactly the five values
error, loaded, missing, registered and ready, a strict subset of the seven
public module states; the transient states loading and executing are
absent from the entry state type yet present in the ModuleState union that
getState may return (or null). -/
theorem c9_registry_entry_states :
    (unionLiterals registryEntryStateTy).all
      (fun s => (unionLiterals moduleStateTy).contains s) = true ∧
    unionLiterals registryEntryStateTy
      = ["error", "loaded", "missing", "registered", "ready"] ∧
    unionLiterals moduleStateTy
      = ["error", "executing", "loaded", "loading", "missing", "ready", "registered"] ∧
    (unionLiterals registryEntryStateTy).contains ("loading") = false ∧
    (unionLiterals registryEntryStateTy).contains ("executing") = false ∧
    (unionLiterals moduleStateTy).contains ("loading") = true ∧
    (unionLiterals moduleStateTy).contains ("executing") = true ∧
    getStateReturnTy = TsTy.union (TsTy.ref ("ModuleState")) TsTy.nullTy := by
  refine ⟨by decide, by decide, by decide, by decide, by decide, by decide,
    by decide, rfl⟩

/-- C10: the two notification entry points declare identical message and
options parameters; mw.notify returns a jQuery promise of the Notification
object while mw.notification.notify returns the Notification object
itself, so the declared return types differ exactly by the promise
wrapper. -/
theorem c10_notify_refinement :
    mwNotifySig.params = mwNotificationNotifySig.params ∧
    mwNotifySig.ret = TsTy.app1 ("JQuery.Promise") mwNotificationNotifySig.ret ∧
    mwNotificationNotifySig.ret = TsTy.ref ("Notification") ∧
    mwNotifySig.ret ≠ mwNotificationNotifySig.ret := by
  refine ⟨rfl, rfl, rfl, by decide⟩

end TypesMediawiki
